import Mathlib

/-!
Verification of the snuba admission-control core: per-request settings
(`snuba/request/request_settings.py`), the hierarchical object-id rate
limiter (`snuba/query/processors/object_id_rate_limiter.py`), and the
bounded subscription executor's shutdown protocol
(`snuba/cli/subscriptions_executor.py`, spec sections 4.3 / 5 / 6).

Shallow embedding conventions: Python mutation of a settings object
becomes explicit state passing (each mutator returns the new settings);
Python `Optional` becomes `Option`; the external enforcement store is an
explicit function from key names to optional stored values.
-/

/-- Modelled from the spec: `RateLimitParameters` lives in
`snuba/state/rate_limit.py`, which is outside the core sources; spec
section 3 describes it as an immutable value object with a category name,
a string bucket, and two optional numeric limits (unset = unlimited). -/
structure RateLimitParameters where
  rate_limit_name : String
  bucket : String
  per_second_limit : Option Int
  concurrent_limit : Option Int
deriving DecidableEq, Repr

/-- Modelled from the spec: `ResourceQuota` lives in
`snuba/state/quota.py`, outside the core sources; spec section 3
describes it as an optional additional budget (e.g. max threads). -/
structure ResourceQuota where
  max_threads : Int
deriving DecidableEq, Repr

/-- Modelled from the spec: the rate-limit category name constants are
defined in `snuba/state/rate_limit.py`, outside the core sources; spec
section 3 gives the categories "organization", "project", "referrer"
(and the processor file also uses a project-and-referrer category). -/
def ORGANIZATION_RATE_LIMIT_NAME : String := "organization"

/-- Modelled from the spec: see `ORGANIZATION_RATE_LIMIT_NAME`. -/
def PROJECT_RATE_LIMIT_NAME : String := "project"

/-- Modelled from the spec: see `ORGANIZATION_RATE_LIMIT_NAME`. -/
def PROJECT_REFERRER_RATE_LIMIT_NAME : String := "project_referrer"

/-- Modelled from the spec: see `ORGANIZATION_RATE_LIMIT_NAME`. -/
def REFERRER_RATE_LIMIT_NAME : String := "referrer"

/-- `HTTPRequestSettings` (`request_settings.py` lines 75-145): full
configurability, a list accumulator of rate-limit parameters and an
optional resource quota. Field defaults mirror the Python defaults. -/
structure HTTPRequestSettings where
  referrer : String := "<unknown>"
  turbo : Bool := false
  consistent : Bool := false
  debug : Bool := false
  parent_api : String := "<unknown>"
  dry_run : Bool := false
  legacy : Bool := false
  team : String := "<unknown>"
  feature : String := "<unknown>"
  app_id : String := "default"
  rate_limit_params : List RateLimitParameters := []
  resource_quota : Option ResourceQuota := none
deriving DecidableEq, Repr

/-- `SubscriptionRequestSettings` (`request_settings.py` lines 148-207):
hard-coded parameters, no storage at all for rate limits or quotas. -/
structure SubscriptionRequestSettings where
  referrer : String
  consistent : Bool := true
  parent_api : String := "subscription"
  team : String := "workflow"
  feature : String := "subscription"
  app_id : String := "default"
deriving DecidableEq, Repr

/-- The abstract `RequestSettings` (`request_settings.py` lines 8-72)
with its two concrete variants, represented as a closed sum. -/
inductive RequestSettings where
  | http (h : HTTPRequestSettings)
  | subscription (s : SubscriptionRequestSettings)
deriving DecidableEq, Repr

/-- `referrer` attribute, set by the base class constructor
(`request_settings.py` line 20). -/
def RequestSettings.referrer : RequestSettings → String
  | .http h => h.referrer
  | .subscription s => s.referrer

/-- `get_rate_limit_params`: the HTTP variant returns its accumulator
(line 135-136); the subscription variant always returns the empty
sequence (lines 197-198). -/
def RequestSettings.get_rate_limit_params : RequestSettings → List RateLimitParameters
  | .http h => h.rate_limit_params
  | .subscription _ => []

/-- `add_rate_limit`: the HTTP variant appends (lines 138-139); the
subscription variant is a no-op (lines 200-201). -/
def RequestSettings.add_rate_limit : RequestSettings → RateLimitParameters → RequestSettings
  | .http h, p => .http { h with rate_limit_params := h.rate_limit_params ++ [p] }
  | .subscription s, _ => .subscription s

/-- `get_resource_quota`: HTTP variant returns its stored quota (lines
141-142); subscription variant always returns `None` (lines 203-204). -/
def RequestSettings.get_resource_quota : RequestSettings → Option ResourceQuota
  | .http h => h.resource_quota
  | .subscription _ => none

/-- `set_resource_quota`: HTTP variant replaces the stored quota (lines
144-145); subscription variant is a no-op (lines 206-207). -/
def RequestSettings.set_resource_quota : RequestSettings → ResourceQuota → RequestSettings
  | .http h, r => .http { h with resource_quota := some r }
  | .subscription s, _ => .subscription s

/-- Modelled from the spec: the logical `Query` AST and the accessor
`get_object_ids_in_query_ast` (`snuba/clickhouse/query_dsl/accessors.py`)
are outside the core sources. Spec section 4.2 step 2: extraction scans
the query for conditions on a designated column and collects the
referenced literal values as candidate object ids. A query is therefore
modelled by the candidate ids it yields for each column name; the order
of the list stands for the iteration order of the Python set, whose
`pop()` removes an arbitrary element (here: the head). -/
structure Query where
  ids : String → List Int

/-- Modelled from the spec: see `Query`. -/
def get_object_ids_in_query_ast (query : Query) (object_column : String) : List Int :=
  query.ids object_column

/-- `DEFAULT_LIMIT` (`object_id_rate_limiter.py` line 16). -/
def DEFAULT_LIMIT : Int := 1000

/-- Which concrete subclass a processor instance belongs to, as far as
method overriding is concerned: `OrganizationRateLimiterProcessor` and
`ProjectRateLimiterProcessor` override nothing (tag `generic`);
`ProjectReferrerRateLimiter` overrides `get_object_id`,
`get_per_second_name` and `get_concurrent_name`;
`ReferrerRateLimiterProcessor` overrides `get_object_id`. -/
inductive ProcessorVariant where
  | generic
  | projectReferrer
  | referrer
deriving DecidableEq, Repr

/-- `ObjectIDRateLimiterProcessor.__init__` fields
(`object_id_rate_limiter.py` lines 25-39), plus the variant tag that
stands for Python method dispatch. -/
structure ObjectIDRateLimiterProcessor where
  object_column : String
  rate_limit_name : String
  per_second_name : String
  concurrent_name : String
  request_settings_field : Option String := none
  default_limit : Option Int := some DEFAULT_LIMIT
  variant : ProcessorVariant := ProcessorVariant.generic
deriving DecidableEq, Repr

/-- `OrganizationRateLimiterProcessor.__init__` (lines 117-123). -/
def OrganizationRateLimiterProcessor (org_column : String) : ObjectIDRateLimiterProcessor :=
  { object_column := org_column
    rate_limit_name := ORGANIZATION_RATE_LIMIT_NAME
    per_second_name := "org_per_second_limit"
    concurrent_name := "org_concurrent_limit" }

/-- `ProjectReferrerRateLimiter.__init__` (lines 127-135). -/
def ProjectReferrerRateLimiter (project_column : String) : ObjectIDRateLimiterProcessor :=
  { object_column := project_column
    rate_limit_name := PROJECT_REFERRER_RATE_LIMIT_NAME
    per_second_name := "project_referrer_per_second_limit"
    concurrent_name := "project_referrer_concurrent_limit"
    request_settings_field := some "referrer"
    default_limit := none
    variant := ProcessorVariant.projectReferrer }

/-- `ReferrerRateLimiterProcessor.__init__` (lines 163-171). -/
def ReferrerRateLimiterProcessor : ObjectIDRateLimiterProcessor :=
  { object_column := "nocolumn"
    rate_limit_name := REFERRER_RATE_LIMIT_NAME
    per_second_name := "referrer_per_second_limit"
    concurrent_name := "referrer_concurrent_limit"
    request_settings_field := some "referrer"
    default_limit := none
    variant := ProcessorVariant.referrer }

/-- `ProjectRateLimiterProcessor.__init__` (lines 184-190). -/
def ProjectRateLimiterProcessor (project_column : String) : ObjectIDRateLimiterProcessor :=
  { object_column := project_column
    rate_limit_name := PROJECT_RATE_LIMIT_NAME
    per_second_name := "project_per_second_limit"
    concurrent_name := "project_concurrent_limit" }

/-- `_is_already_applied` (lines 41-46): scan the existing parameters
for an entry with this processor's `rate_limit_name`. -/
def ObjectIDRateLimiterProcessor.is_already_applied
    (p : ObjectIDRateLimiterProcessor) (request_settings : RequestSettings) : Bool :=
  request_settings.get_rate_limit_params.any
    (fun ex => ex.rate_limit_name == p.rate_limit_name)

/-- `getattr(request_settings, self.request_settings_field, None)`
(lines 58-60). The only field name ever passed by the concrete
processors is "referrer", an attribute both settings variants carry;
any other name resolves to the `None` default. -/
def RequestSettings.getattr (request_settings : RequestSettings) (field : String) : Option String :=
  if field = "referrer" then some request_settings.referrer else none

/-- `ObjectIDRateLimiterProcessor.get_object_id` (lines 48-63) together
with its two overrides: `ProjectReferrerRateLimiter.get_object_id`
(lines 147-156) drops the settings-field suffixing, and
`ReferrerRateLimiterProcessor.get_object_id` (lines 173-174) returns
the settings' referrer unconditionally. -/
def ObjectIDRateLimiterProcessor.get_object_id
    (p : ObjectIDRateLimiterProcessor) (query : Query)
    (request_settings : RequestSettings) : Option String :=
  match p.variant with
  | ProcessorVariant.referrer => some request_settings.referrer
  | ProcessorVariant.projectReferrer =>
    match get_object_ids_in_query_ast query p.object_column with
    | [] => none
    | i :: _ => some (toString i)
  | ProcessorVariant.generic =>
    match get_object_ids_in_query_ast query p.object_column with
    | [] => none
    | i :: _ =>
      let obj_id := toString i
      match p.request_settings_field with
      | none => some obj_id
      | some field =>
        match request_settings.getattr field with
        | none => some obj_id
        | some v => some (obj_id ++ "_" ++ v)

/-- `get_per_second_name` (lines 65-68) and the
`ProjectReferrerRateLimiter` override suffixing the referrer
(lines 142-145). -/
def ObjectIDRateLimiterProcessor.get_per_second_name
    (p : ObjectIDRateLimiterProcessor) (_query : Query)
    (request_settings : RequestSettings) : String :=
  match p.variant with
  | ProcessorVariant.projectReferrer => p.per_second_name ++ "_" ++ request_settings.referrer
  | _ => p.per_second_name

/-- `get_concurrent_name` (lines 70-73) and the
`ProjectReferrerRateLimiter` override suffixing the referrer
(lines 137-140). -/
def ObjectIDRateLimiterProcessor.get_concurrent_name
    (p : ObjectIDRateLimiterProcessor) (_query : Query)
    (request_settings : RequestSettings) : String :=
  match p.variant with
  | ProcessorVariant.projectReferrer => p.concurrent_name ++ "_" ++ request_settings.referrer
  | _ => p.concurrent_name

/-- The enforcement store, an external key-value collaborator: a map
from configuration key to the stored override, when present. -/
def ConfigStore : Type := String → Option Int

/-- Modelled from the spec: `get_configs` lives in `snuba/state`,
outside the core sources. Spec section 6: for each `(name, default)`
pair it returns the stored override if present, else the supplied
default. This is the single-key resolution; `process_query` calls it
once per key of each pair. -/
def get_config (store : ConfigStore) (name : String) (default : Option Int) : Option Int :=
  match store name with
  | some v => some v
  | none => default

/-- `process_query` (lines 75-107): idempotence guard, global config
pair with the static default as fallback, object extraction, per-object
override pair keyed by name and object id with the global pair as
defaults, skip condition, attach. -/
def ObjectIDRateLimiterProcessor.process_query
    (p : ObjectIDRateLimiterProcessor) (store : ConfigStore) (query : Query)
    (request_settings : RequestSettings) : RequestSettings :=
  if p.is_already_applied request_settings then request_settings
  else
    let per_second_name := p.get_per_second_name query request_settings
    let concurrent_name := p.get_concurrent_name query request_settings
    let object_rate_limit := get_config store per_second_name p.default_limit
    let object_concurrent_limit := get_config store concurrent_name p.default_limit
    match p.get_object_id query request_settings with
    | none => request_settings
    | some obj_id =>
      let per_second := get_config store (per_second_name ++ "_" ++ obj_id) object_rate_limit
      let concurr := get_config store (concurrent_name ++ "_" ++ obj_id) object_concurrent_limit
      if p.default_limit = none ∧ per_second = none ∧ concurr = none then request_settings
      else
        request_settings.add_rate_limit
          { rate_limit_name := p.rate_limit_name
            bucket := obj_id
            per_second_limit := per_second
            concurrent_limit := concurr }

namespace Executor

/-- Modelled from the spec: the bounded subscription executor's task
loop lives in `snuba/subscriptions/executor_consumer.py` and the arroyo
stream processor, outside the core sources; `subscriptions_executor.py`
only wires the signal handlers, the thread pool and the closing of the
producer. Spec sections 4.3 / 5 / 6 give the protocol: states Running →
ShuttingDown → Stopped with no transition back. -/
inductive Mode where
  | running
  | shuttingDown
  | stopped
deriving DecidableEq, Repr

/-- Modelled from the spec: the observable executor state — its mode,
the number of admitted tasks still in flight (incremented on admit,
decremented on completion, failure or discard, spec section 5), and how
many times the outbound producer has been flushed. -/
structure ExecState where
  mode : Mode
  inFlight : Nat
  flushCount : Nat
deriving DecidableEq, Repr

/-- The executor starts Running with no in-flight task and an
unflushed producer. -/
def initState : ExecState := ⟨Mode.running, 0, 0⟩

/-- Modelled from the spec: the events of one executor run. `signal`
stands for either termination signal — spec section 6 requires
interrupt and terminate to be handled identically. -/
inductive Event where
  | admitTask
  | complete
  | fail
  | signal
  | flush
deriving DecidableEq, Repr

/-- Modelled from the spec, one transition per event:
admission only while Running and strictly below the
`max_concurrent_queries` ceiling (section 4.3, admission; section 5,
bounded pool); completion and failure both release a slot (section 7:
a failing task's slot is released as if it had completed); a signal
moves Running to ShuttingDown and is a no-op afterwards (no transition
back to Running, section 4.3); a flush is possible only while
ShuttingDown with no task in flight and a not-yet-flushed producer, and
stops the executor (section 4.3 shutdown protocol: in-flight tasks
finish, then the producer is flushed, then the process exits). -/
def step (maxConcurrent : Nat) (s : ExecState) : Event → Option ExecState
  | Event.admitTask =>
    if s.mode = Mode.running ∧ s.inFlight < maxConcurrent then
      some { s with inFlight := s.inFlight + 1 }
    else none
  | Event.complete =>
    if s.inFlight ≠ 0 then some { s with inFlight := s.inFlight - 1 } else none
  | Event.fail =>
    if s.inFlight ≠ 0 then some { s with inFlight := s.inFlight - 1 } else none
  | Event.signal =>
    match s.mode with
    | Mode.running => some { s with mode := Mode.shuttingDown }
    | _ => some s
  | Event.flush =>
    if s.mode = Mode.shuttingDown ∧ s.inFlight = 0 ∧ s.flushCount = 0 then
      some { s with mode := Mode.stopped, flushCount := s.flushCount + 1 }
    else none

/-- A run of the executor: fold the step relation over an event trace;
`none` means the trace is not a possible behaviour. -/
def run (maxConcurrent : Nat) (s : ExecState) : List Event → Option ExecState
  | [] => some s
  | e :: es =>
    match step maxConcurrent s e with
    | none => none
    | some s2 => run maxConcurrent s2 es

end Executor

/-! ## Helper lemmas -/

/-- A fold of `add_rate_limit` over subscription settings never leaves
the subscription constructor (the override is a no-op). -/
theorem foldl_add_rate_limit_subscription (s : SubscriptionRequestSettings)
    (ps : List RateLimitParameters) :
    ps.foldl RequestSettings.add_rate_limit (RequestSettings.subscription s) =
      RequestSettings.subscription s := by
  induction ps with
  | nil => rfl
  | cons p ps ih => simpa [RequestSettings.add_rate_limit] using ih

/-- A fold of `set_resource_quota` over subscription settings never
leaves the subscription constructor (the override is a no-op). -/
theorem foldl_set_resource_quota_subscription (s : SubscriptionRequestSettings)
    (qs : List ResourceQuota) :
    qs.foldl RequestSettings.set_resource_quota (RequestSettings.subscription s) =
      RequestSettings.subscription s := by
  induction qs with
  | nil => rfl
  | cons q qs ih => simpa [RequestSettings.set_resource_quota] using ih

/-- When the idempotence guard fires, `process_query` returns the
settings unchanged (`object_id_rate_limiter.py` lines 77-78). -/
theorem process_query_of_applied (p : ObjectIDRateLimiterProcessor) (store : ConfigStore)
    (query : Query) (s : RequestSettings) (hA : p.is_already_applied s = true) :
    p.process_query store query s = s := by
  simp [ObjectIDRateLimiterProcessor.process_query, hA]

/-- After appending an entry carrying this processor's
`rate_limit_name` to HTTP settings, the guard fires. -/
theorem applied_after_add (p : ObjectIDRateLimiterProcessor) (h : HTTPRequestSettings)
    (b : String) (x y : Option Int) :
    p.is_already_applied
      ((RequestSettings.http h).add_rate_limit ⟨p.rate_limit_name, b, x, y⟩) = true := by
  simp [ObjectIDRateLimiterProcessor.is_already_applied, RequestSettings.add_rate_limit,
    RequestSettings.get_rate_limit_params]

/-- Every run of `process_query` either leaves the settings unchanged
or appends one entry named after the processor, and the latter only
when the guard did not fire. -/
theorem process_query_cases (p : ObjectIDRateLimiterProcessor) (store : ConfigStore)
    (query : Query) (s : RequestSettings) :
    p.process_query store query s = s ∨
      (p.is_already_applied s = false ∧ ∃ b x y,
        p.process_query store query s = s.add_rate_limit ⟨p.rate_limit_name, b, x, y⟩) := by
  unfold ObjectIDRateLimiterProcessor.process_query
  split
  · exact Or.inl rfl
  · next hA =>
    split
    · exact Or.inl rfl
    · next obj hobj =>
      dsimp only
      split
      · exact Or.inl rfl
      · exact Or.inr ⟨by simpa using hA, obj, _, _, rfl⟩

/-! ## Claims -/

/-- C1: for every `SubscriptionRequestSettings` instance and every
sequence of `add_rate_limit` calls applied to it,
`get_rate_limit_params()` returns the empty sequence: subscription
settings never accumulate rate limits. -/
theorem subscription_settings_never_accumulate_rate_limits
    (s : SubscriptionRequestSettings) (ps : List RateLimitParameters) :
    (ps.foldl RequestSettings.add_rate_limit
        (RequestSettings.subscription s)).get_rate_limit_params = [] := by
  rw [foldl_add_rate_limit_subscription]
  rfl

/-- C10: for every `SubscriptionRequestSettings` instance and every
sequence of `set_resource_quota` calls applied to it,
`get_resource_quota()` returns `none`: the subscription variant
silently ignores resource quotas as well as rate limits. -/
theorem subscription_settings_ignore_resource_quota
    (s : SubscriptionRequestSettings) (qs : List ResourceQuota) :
    (qs.foldl RequestSettings.set_resource_quota
        (RequestSettings.subscription s)).get_resource_quota = none := by
  rw [foldl_set_resource_quota_subscription]
  rfl

/-- C5: for every query (whatever object-id conditions it contains on
whatever columns) and every `RequestSettings`, the pure-referrer
variant's object-id resolution returns exactly the settings' referrer
field, never a value derived from the query. -/
theorem referrer_get_object_id_is_referrer (query : Query) (s : RequestSettings) :
    ReferrerRateLimiterProcessor.get_object_id query s = some s.referrer := rfl

/-- C8: for every invocation in which object extraction finds no
candidate object id, `process_query` returns normally and appends no
`RateLimitParameters`: the settings come back exactly unchanged. -/
theorem no_object_id_no_append (p : ObjectIDRateLimiterProcessor) (store : ConfigStore)
    (query : Query) (s : RequestSettings)
    (hobj : p.get_object_id query s = none) :
    p.process_query store query s = s := by
  simp [ObjectIDRateLimiterProcessor.process_query, hobj]

/-- Witness for C8: the organization processor on a query with no
object-id condition at all leaves default HTTP settings unchanged. -/
theorem no_object_id_no_append_witness :
    (OrganizationRateLimiterProcessor "org_id").get_object_id
        (Query.mk fun _ => []) (RequestSettings.http {}) = none ∧
      (OrganizationRateLimiterProcessor "org_id").process_query (fun _ => none)
        (Query.mk fun _ => []) (RequestSettings.http {}) = RequestSettings.http {} :=
  ⟨by decide, no_object_id_no_append _ _ _ _ (by decide)⟩

/-- C2: running the same processor twice via `process_query` over HTTP
settings leaves the settings in the same state as running it once: the
second invocation is stopped by the idempotence guard when the first
appended, and repeats the identical no-op otherwise. -/
theorem object_id_rate_limiter_idempotent (p : ObjectIDRateLimiterProcessor)
    (store : ConfigStore) (query : Query) (h : HTTPRequestSettings) :
    p.process_query store query
        (p.process_query store query (RequestSettings.http h)) =
      p.process_query store query (RequestSettings.http h) := by
  rcases process_query_cases p store query (RequestSettings.http h) with h1 | ⟨-, b, x, y, h1⟩
  · rw [h1, h1]
  · rw [h1]
    exact process_query_of_applied p store query _ (applied_after_add p h b x y)

/-- The per-second limit `process_query` resolves for the current
invocation (`object_id_rate_limiter.py` lines 81-96): the per-object
key, falling back to the global key, falling back to the processor's
static default; `none` when extraction produced no object id (the
per-object lookup is then never made). -/
def ObjectIDRateLimiterProcessor.resolved_per_second
    (p : ObjectIDRateLimiterProcessor) (store : ConfigStore) (query : Query)
    (s : RequestSettings) : Option Int :=
  match p.get_object_id query s with
  | none => none
  | some obj_id =>
    get_config store (p.get_per_second_name query s ++ "_" ++ obj_id)
      (get_config store (p.get_per_second_name query s) p.default_limit)

/-- The concurrent limit `process_query` resolves for the current
invocation; see `resolved_per_second`. -/
def ObjectIDRateLimiterProcessor.resolved_concurrent
    (p : ObjectIDRateLimiterProcessor) (store : ConfigStore) (query : Query)
    (s : RequestSettings) : Option Int :=
  match p.get_object_id query s with
  | none => none
  | some obj_id =>
    get_config store (p.get_concurrent_name query s ++ "_" ++ obj_id)
      (get_config store (p.get_concurrent_name query s) p.default_limit)

/-- C6: when the processor's configured default limit is unset and both
the per-second and the concurrent lookup resolve to no concrete value,
`process_query` attaches nothing and leaves the settings unchanged. -/
theorem unlimited_default_skip (p : ObjectIDRateLimiterProcessor) (store : ConfigStore)
    (query : Query) (s : RequestSettings)
    (hdef : p.default_limit = none)
    (hps : p.resolved_per_second store query s = none)
    (hcc : p.resolved_concurrent store query s = none) :
    p.process_query store query s = s := by
  unfold ObjectIDRateLimiterProcessor.process_query
  split
  · rfl
  · dsimp only
    unfold ObjectIDRateLimiterProcessor.resolved_per_second at hps
    unfold ObjectIDRateLimiterProcessor.resolved_concurrent at hcc
    cases hobj : p.get_object_id query s with
    | none => rfl
    | some obj =>
      simp only [hobj] at hps hcc
      exact if_pos ⟨hdef, hps, hcc⟩

/-- Witness for C6: the referrer processor (static default unset)
against an empty enforcement store leaves the settings unchanged. -/
theorem unlimited_default_skip_witness :
    ReferrerRateLimiterProcessor.default_limit = none ∧
      ReferrerRateLimiterProcessor.resolved_per_second (fun _ => none)
        (Query.mk fun _ => []) (RequestSettings.http { referrer := "r" }) = none ∧
      ReferrerRateLimiterProcessor.resolved_concurrent (fun _ => none)
        (Query.mk fun _ => []) (RequestSettings.http { referrer := "r" }) = none ∧
      ReferrerRateLimiterProcessor.process_query (fun _ => none)
          (Query.mk fun _ => []) (RequestSettings.http { referrer := "r" }) =
        RequestSettings.http { referrer := "r" } :=
  ⟨by decide, by decide, by decide,
    unlimited_default_skip _ _ _ _ (by decide) (by decide) (by decide)⟩

/-- C3: two-tier config resolution. With the global pair for the
category stored as `(10, 5)` (fetched with the processor's static
default as fallback), an invocation that resolves object id `X` reads
the per-object pair under the keys suffixed with `X`, with the global
pair as defaults: a per-object override `(2, 1)` wins, and with no
per-object entry the global `(10, 5)` is attached. -/
theorem two_tier_config_resolution (p : ObjectIDRateLimiterProcessor) (store : ConfigStore)
    (query : Query) (s : RequestSettings) (X : String)
    (hA : p.is_already_applied s = false)
    (hobj : p.get_object_id query s = some X)
    (hg1 : store (p.get_per_second_name query s) = some 10)
    (hg2 : store (p.get_concurrent_name query s) = some 5) :
    (store (p.get_per_second_name query s ++ "_" ++ X) = some 2 →
      store (p.get_concurrent_name query s ++ "_" ++ X) = some 1 →
      p.process_query store query s =
        s.add_rate_limit ⟨p.rate_limit_name, X, some 2, some 1⟩) ∧
    (store (p.get_per_second_name query s ++ "_" ++ X) = none →
      store (p.get_concurrent_name query s ++ "_" ++ X) = none →
      p.process_query store query s =
        s.add_rate_limit ⟨p.rate_limit_name, X, some 10, some 5⟩) := by
  constructor
  · intro ho1 ho2
    simp [ObjectIDRateLimiterProcessor.process_query, hA, hobj, get_config, ho1, ho2]
  · intro ho1 ho2
    simp [ObjectIDRateLimiterProcessor.process_query, hA, hobj, get_config, ho1, ho2, hg1, hg2]

/-- Concrete query for witnesses: one organization id, 42, on the
column "org_id". -/
def exampleOrgQuery : Query := Query.mk fun c => if c = "org_id" then [42] else []

/-- Concrete enforcement store for witnesses: global organization pair
(10, 5) and per-object override (2, 1) for object "42". -/
def exampleOrgStore : ConfigStore := fun k =>
  if k = "org_per_second_limit" then some 10
  else if k = "org_concurrent_limit" then some 5
  else if k = "org_per_second_limit_42" then some 2
  else if k = "org_concurrent_limit_42" then some 1
  else none

/-- Witness for C3: on `exampleOrgStore`, the organization processor
resolves object "42" to the per-object override pair (2, 1). -/
theorem two_tier_config_resolution_witness :
    (OrganizationRateLimiterProcessor "org_id").is_already_applied
        (RequestSettings.http {}) = false ∧
      (OrganizationRateLimiterProcessor "org_id").get_object_id exampleOrgQuery
        (RequestSettings.http {}) = some "42" ∧
      exampleOrgStore ((OrganizationRateLimiterProcessor "org_id").get_per_second_name
        exampleOrgQuery (RequestSettings.http {})) = some 10 ∧
      exampleOrgStore ((OrganizationRateLimiterProcessor "org_id").get_concurrent_name
        exampleOrgQuery (RequestSettings.http {})) = some 5 ∧
      (OrganizationRateLimiterProcessor "org_id").process_query exampleOrgStore
          exampleOrgQuery (RequestSettings.http {}) =
        (RequestSettings.http {}).add_rate_limit
          ⟨ORGANIZATION_RATE_LIMIT_NAME, "42", some 2, some 1⟩ :=
  ⟨by decide, by decide, by decide, by decide,
    (two_tier_config_resolution _ _ _ _ _ (by decide) (by decide) (by decide)
      (by decide)).1 (by decide) (by decide)⟩

/-- Counterexample for C4: the project-and-referrer processor, one of
the category processors, on a query referencing exactly one project id
and settings with no prior entry of its category, attaches nothing when
the enforcement store is empty (its static default limit is unset), so
"exactly one new RateLimitParameters" fails as a universal statement. -/
theorem single_id_attach_counterexample :
    (Query.mk fun c => if c = "project_id" then [42] else []).ids "project_id" = [42] ∧
      (RequestSettings.http {}).get_rate_limit_params = [] ∧
      ((ProjectReferrerRateLimiter "project_id").process_query (fun _ => none)
          (Query.mk fun c => if c = "project_id" then [42] else [])
          (RequestSettings.http {})).get_rate_limit_params = [] := by
  decide

/-- C4 amended: for every processor of the non-overriding family with
its static default limit set (the organization- and project-scoped
variants), a query referencing exactly one object id on the designated
column, and HTTP settings with no prior entry of the category,
`process_query` appends exactly one new `RateLimitParameters` named
after the category with bucket the string form of the object id.
(Processors whose static default is unset attach nothing when neither
config lookup resolves — see C6.) -/
theorem single_id_single_entry (p : ObjectIDRateLimiterProcessor) (store : ConfigStore)
    (query : Query) (h : HTTPRequestSettings) (i d : Int)
    (hvar : p.variant = ProcessorVariant.generic)
    (hfield : p.request_settings_field = none)
    (hdef : p.default_limit = some d)
    (hq : query.ids p.object_column = [i])
    (hA : p.is_already_applied (RequestSettings.http h) = false) :
    ∃ ps cc,
      (p.process_query store query (RequestSettings.http h)).get_rate_limit_params =
        h.rate_limit_params ++ [⟨p.rate_limit_name, toString i, ps, cc⟩] := by
  have hobj : p.get_object_id query (RequestSettings.http h) = some (toString i) := by
    simp [ObjectIDRateLimiterProcessor.get_object_id, hvar, hfield,
      get_object_ids_in_query_ast, hq]
  refine ⟨get_config store
      (p.get_per_second_name query (RequestSettings.http h) ++ "_" ++ toString i)
      (get_config store (p.get_per_second_name query (RequestSettings.http h)) p.default_limit),
    get_config store
      (p.get_concurrent_name query (RequestSettings.http h) ++ "_" ++ toString i)
      (get_config store (p.get_concurrent_name query (RequestSettings.http h)) p.default_limit),
    ?_⟩
  simp [ObjectIDRateLimiterProcessor.process_query, hA, hobj, hdef,
    RequestSettings.add_rate_limit, RequestSettings.get_rate_limit_params]

/-- Witness for C4 amended: the organization processor on
`exampleOrgQuery` appends exactly one organization entry with
bucket "42". -/
theorem single_id_single_entry_witness :
    (OrganizationRateLimiterProcessor "org_id").variant = ProcessorVariant.generic ∧
      (OrganizationRateLimiterProcessor "org_id").request_settings_field = none ∧
      (OrganizationRateLimiterProcessor "org_id").default_limit = some 1000 ∧
      exampleOrgQuery.ids (OrganizationRateLimiterProcessor "org_id").object_column = [42] ∧
      (OrganizationRateLimiterProcessor "org_id").is_already_applied
        (RequestSettings.http {}) = false ∧
      ∃ ps cc,
        ((OrganizationRateLimiterProcessor "org_id").process_query exampleOrgStore
            exampleOrgQuery (RequestSettings.http {})).get_rate_limit_params =
          [] ++ [⟨(OrganizationRateLimiterProcessor "org_id").rate_limit_name,
            toString (42 : Int), ps, cc⟩] :=
  ⟨by decide, by decide, by decide, by decide, by decide,
    single_id_single_entry _ exampleOrgStore exampleOrgQuery {} 42 1000
      (by decide) (by decide) (by decide) (by decide) (by decide)⟩

/-- Counterexample for C7: the project-and-referrer processor, run on
the same single-project query under two settings that differ only in
their referrer, attaches the same entry with bucket "7" both times: the
bucket is the project id alone and does not incorporate the referrer
(the base-class suffixed form "7_r" never appears). -/
theorem project_referrer_bucket_counterexample :
    ((ProjectReferrerRateLimiter "project_id").process_query (fun _ => some 10)
        (Query.mk fun c => if c = "project_id" then [7] else [])
        (RequestSettings.http { referrer := "r" })).get_rate_limit_params =
      [⟨PROJECT_REFERRER_RATE_LIMIT_NAME, "7", some 10, some 10⟩] ∧
    ((ProjectReferrerRateLimiter "project_id").process_query (fun _ => some 10)
        (Query.mk fun c => if c = "project_id" then [7] else [])
        (RequestSettings.http { referrer := "completely_different" })).get_rate_limit_params =
      [⟨PROJECT_REFERRER_RATE_LIMIT_NAME, "7", some 10, some 10⟩] ∧
    ("7" : String) ≠ "7_r" := by
  decide

/-- C7 amended: for every query referencing a project id and every HTTP
settings with a referrer, when the project-and-referrer processor
attaches (at least one of its two lookups resolves — its static default
is unset), the attached entry's bucket is the project id alone, and the
referrer instead segments the configuration key names under which the
per-second and concurrent limits are looked up. -/
theorem project_referrer_keys_segmented (project_column : String) (store : ConfigStore)
    (query : Query) (h : HTTPRequestSettings) (i : Int) (rest : List Int)
    (hq : query.ids project_column = i :: rest)
    (hA : (ProjectReferrerRateLimiter project_column).is_already_applied
      (RequestSettings.http h) = false)
    (hres : ¬((ProjectReferrerRateLimiter project_column).resolved_per_second store query
          (RequestSettings.http h) = none ∧
        (ProjectReferrerRateLimiter project_column).resolved_concurrent store query
          (RequestSettings.http h) = none)) :
    (ProjectReferrerRateLimiter project_column).get_per_second_name query
        (RequestSettings.http h) =
      "project_referrer_per_second_limit" ++ "_" ++ h.referrer ∧
    (ProjectReferrerRateLimiter project_column).get_concurrent_name query
        (RequestSettings.http h) =
      "project_referrer_concurrent_limit" ++ "_" ++ h.referrer ∧
    ((ProjectReferrerRateLimiter project_column).process_query store query
        (RequestSettings.http h)).get_rate_limit_params =
      h.rate_limit_params ++
        [⟨PROJECT_REFERRER_RATE_LIMIT_NAME, toString i,
          (ProjectReferrerRateLimiter project_column).resolved_per_second store query
            (RequestSettings.http h),
          (ProjectReferrerRateLimiter project_column).resolved_concurrent store query
            (RequestSettings.http h)⟩] := by
  have hobj : (ProjectReferrerRateLimiter project_column).get_object_id query
      (RequestSettings.http h) = some (toString i) := by
    simp [ObjectIDRateLimiterProcessor.get_object_id, ProjectReferrerRateLimiter,
      get_object_ids_in_query_ast, hq]
  refine ⟨?_, ?_, ?_⟩
  · simp [ObjectIDRateLimiterProcessor.get_per_second_name, ProjectReferrerRateLimiter,
      RequestSettings.referrer]
  · simp [ObjectIDRateLimiterProcessor.get_concurrent_name, ProjectReferrerRateLimiter,
      RequestSettings.referrer]
  · have hps : (ProjectReferrerRateLimiter project_column).resolved_per_second store query
        (RequestSettings.http h) =
      get_config store ((ProjectReferrerRateLimiter project_column).get_per_second_name query
          (RequestSettings.http h) ++ "_" ++ toString i)
        (get_config store ((ProjectReferrerRateLimiter project_column).get_per_second_name
          query (RequestSettings.http h))
          (ProjectReferrerRateLimiter project_column).default_limit) := by
      simp [ObjectIDRateLimiterProcessor.resolved_per_second, hobj]
    have hcc : (ProjectReferrerRateLimiter project_column).resolved_concurrent store query
        (RequestSettings.http h) =
      get_config store ((ProjectReferrerRateLimiter project_column).get_concurrent_name query
          (RequestSettings.http h) ++ "_" ++ toString i)
        (get_config store ((ProjectReferrerRateLimiter project_column).get_concurrent_name
          query (RequestSettings.http h))
          (ProjectReferrerRateLimiter project_column).default_limit) := by
      simp [ObjectIDRateLimiterProcessor.resolved_concurrent, hobj]
    rw [hps, hcc] at hres ⊢
    unfold ObjectIDRateLimiterProcessor.process_query
    simp only [hA, Bool.false_eq_true, if_false, hobj]
    rw [if_neg]
    · simp [RequestSettings.add_rate_limit, RequestSettings.get_rate_limit_params,
        ProjectReferrerRateLimiter, PROJECT_REFERRER_RATE_LIMIT_NAME]
    · intro hand
      exact hres ⟨hand.2.1, hand.2.2⟩

/-- Witness for C7 amended: project id 7, referrer "r", a store
resolving every key to 10: the attached bucket is "7" and the lookup
keys carry the referrer. -/
theorem project_referrer_keys_segmented_witness :
    (Query.mk fun c => if c = "project_id" then [7] else []).ids "project_id" = [(7 : Int)] ∧
      (ProjectReferrerRateLimiter "project_id").is_already_applied
        (RequestSettings.http { referrer := "r" }) = false ∧
      ¬((ProjectReferrerRateLimiter "project_id").resolved_per_second (fun _ => some 10)
            (Query.mk fun c => if c = "project_id" then [7] else [])
            (RequestSettings.http { referrer := "r" }) = none ∧
          (ProjectReferrerRateLimiter "project_id").resolved_concurrent (fun _ => some 10)
            (Query.mk fun c => if c = "project_id" then [7] else [])
            (RequestSettings.http { referrer := "r" }) = none) ∧
      ((ProjectReferrerRateLimiter "project_id").get_per_second_name
          (Query.mk fun c => if c = "project_id" then [7] else [])
          (RequestSettings.http { referrer := "r" }) =
        "project_referrer_per_second_limit" ++ "_" ++
          (HTTPRequestSettings.mk "r" false false false "<unknown>" false false "<unknown>"
            "<unknown>" "default" [] none).referrer ∧
      (ProjectReferrerRateLimiter "project_id").get_concurrent_name
          (Query.mk fun c => if c = "project_id" then [7] else [])
          (RequestSettings.http { referrer := "r" }) =
        "project_referrer_concurrent_limit" ++ "_" ++
          (HTTPRequestSettings.mk "r" false false false "<unknown>" false false "<unknown>"
            "<unknown>" "default" [] none).referrer ∧
      ((ProjectReferrerRateLimiter "project_id").process_query (fun _ => some 10)
          (Query.mk fun c => if c = "project_id" then [7] else [])
          (RequestSettings.http { referrer := "r" })).get_rate_limit_params =
        [] ++
          [⟨PROJECT_REFERRER_RATE_LIMIT_NAME, toString (7 : Int),
            (ProjectReferrerRateLimiter "project_id").resolved_per_second (fun _ => some 10)
              (Query.mk fun c => if c = "project_id" then [7] else [])
              (RequestSettings.http { referrer := "r" }),
            (ProjectReferrerRateLimiter "project_id").resolved_concurrent (fun _ => some 10)
              (Query.mk fun c => if c = "project_id" then [7] else [])
              (RequestSettings.http { referrer := "r" })⟩]) :=
  ⟨by decide, by decide, by decide,
    project_referrer_keys_segmented "project_id" (fun _ => some 10)
      (Query.mk fun c => if c = "project_id" then [7] else []) { referrer := "r" } 7 []
      (by decide) (by decide) (by decide)⟩

namespace Executor

/-- How one step can change the mode: it is preserved, or a signal
takes Running to ShuttingDown, or a flush takes ShuttingDown to
Stopped. There is no other mode change, in particular none back to
Running. -/
theorem step_mode (m : Nat) (s s2 : ExecState) (e : Event)
    (hstep : step m s e = some s2) :
    s2.mode = s.mode ∨
      (e = Event.signal ∧ s.mode = Mode.running ∧ s2.mode = Mode.shuttingDown) ∨
      (e = Event.flush ∧ s.mode = Mode.shuttingDown ∧ s2.mode = Mode.stopped) := by
  cases e with
  | admitTask =>
    simp only [step] at hstep
    split at hstep
    · cases hstep; exact Or.inl rfl
    · cases hstep
  | complete =>
    simp only [step] at hstep
    split at hstep
    · cases hstep; exact Or.inl rfl
    · cases hstep
  | fail =>
    simp only [step] at hstep
    split at hstep
    · cases hstep; exact Or.inl rfl
    · cases hstep
  | signal =>
    simp only [step] at hstep
    split at hstep
    · next hm => cases hstep; exact Or.inr (Or.inl ⟨rfl, hm, rfl⟩)
    · cases hstep; exact Or.inl rfl
  | flush =>
    simp only [step] at hstep
    split at hstep
    · next hc => cases hstep; exact Or.inr (Or.inr ⟨rfl, hc.1, rfl⟩)
    · cases hstep

/-- How one step can change the flush counter: only a flush changes it,
it requires the counter to be zero, and it increments it. -/
theorem step_flushCount (m : Nat) (s s2 : ExecState) (e : Event)
    (hstep : step m s e = some s2) :
    (e = Event.flush ∧ s.flushCount = 0 ∧ s2.flushCount = s.flushCount + 1) ∨
      (e ≠ Event.flush ∧ s2.flushCount = s.flushCount) := by
  cases e with
  | admitTask =>
    simp only [step] at hstep
    split at hstep
    · cases hstep; exact Or.inr ⟨by simp, rfl⟩
    · cases hstep
  | complete =>
    simp only [step] at hstep
    split at hstep
    · cases hstep; exact Or.inr ⟨by simp, rfl⟩
    · cases hstep
  | fail =>
    simp only [step] at hstep
    split at hstep
    · cases hstep; exact Or.inr ⟨by simp, rfl⟩
    · cases hstep
  | signal =>
    simp only [step] at hstep
    split at hstep
    · cases hstep; exact Or.inr ⟨by simp, rfl⟩
    · cases hstep; exact Or.inr ⟨by simp, rfl⟩
  | flush =>
    simp only [step] at hstep
    split at hstep
    · next hc => cases hstep; exact Or.inl ⟨rfl, hc.2.2, rfl⟩
    · cases hstep

/-- `run` over a concatenation is sequential composition. -/
theorem run_append (m : Nat) (es1 es2 : List Event) :
    ∀ s : ExecState, run m s (es1 ++ es2) =
      (run m s es1).bind (fun s1 => run m s1 es2) := by
  induction es1 with
  | nil => intro s; rfl
  | cons e es1 ih =>
    intro s
    simp only [List.cons_append, run]
    cases hstep : step m s e with
    | none => rfl
    | some s2 => exact ih s2

/-- Once the executor has left Running, no later event is an admit:
admission requires Running and no step returns to Running. -/
theorem no_admit_of_not_running (m : Nat) (es : List Event) :
    ∀ s s' : ExecState, s.mode ≠ Mode.running → run m s es = some s' →
      Event.admitTask ∉ es := by
  induction es with
  | nil => intro s s' _ _; exact List.not_mem_nil _
  | cons e es ih =>
    intro s s' hmode hrun hmem
    simp only [run] at hrun
    cases hstep : step m s e with
    | none => rw [hstep] at hrun; cases hrun
    | some s2 =>
      rw [hstep] at hrun
      rcases List.mem_cons.mp hmem with heq | hmem2
      · subst heq
        simp only [step] at hstep
        rw [if_neg (fun hc => hmode hc.1)] at hstep
        cases hstep
      · have h2 : s2.mode ≠ Mode.running := by
          rcases step_mode m s s2 e hstep with hsame | ⟨_, h1, _⟩ | ⟨_, _, h3⟩
          · rw [hsame]; exact hmode
          · exact absurd h1 hmode
          · rw [h3]; intro hx; cases hx
        exact ih s2 s' h2 hrun hmem2

/-- A signal always leaves the executor out of Running. -/
theorem signal_not_running (m : Nat) (s s2 : ExecState)
    (hstep : step m s Event.signal = some s2) : s2.mode ≠ Mode.running := by
  cases hm : s.mode with
  | running =>
    simp only [step, hm] at hstep
    cases hstep
    intro hx
    cases hx
  | shuttingDown =>
    simp only [step, hm] at hstep
    cases hstep
    rw [hm]
    intro hx
    cases hx
  | stopped =>
    simp only [step, hm] at hstep
    cases hstep
    rw [hm]
    intro hx
    cases hx

/-- The flush counter after a run is the counter before plus the number
of flush events in the trace. -/
theorem flushCount_run (m : Nat) (es : List Event) :
    ∀ s s' : ExecState, run m s es = some s' →
      s'.flushCount = s.flushCount + es.count Event.flush := by
  induction es with
  | nil =>
    intro s s' hrun
    cases hrun
    simp
  | cons e es ih =>
    intro s s' hrun
    simp only [run] at hrun
    cases hstep : step m s e with
    | none => rw [hstep] at hrun; cases hrun
    | some s2 =>
      rw [hstep] at hrun
      rcases step_flushCount m s s2 e hstep with ⟨heq, _, hinc⟩ | ⟨hne, hsame⟩
      · subst heq
        rw [List.count_cons_self, ih s2 s' hrun, hinc]
        omega
      · rw [List.count_cons_of_ne (by simpa using Ne.symm hne), ih s2 s' hrun, hsame]

/-- A run never flushes twice: starting at most once-flushed, it ends
at most once-flushed (the flush guard requires a zero counter). -/
theorem run_flushCount_le_one (m : Nat) (es : List Event) :
    ∀ s s' : ExecState, s.flushCount ≤ 1 → run m s es = some s' →
      s'.flushCount ≤ 1 := by
  induction es with
  | nil => intro s s' hle hrun; cases hrun; exact hle
  | cons e es ih =>
    intro s s' hle hrun
    simp only [run] at hrun
    cases hstep : step m s e with
    | none => rw [hstep] at hrun; cases hrun
    | some s2 =>
      rw [hstep] at hrun
      rcases step_flushCount m s s2 e hstep with ⟨_, hz, hinc⟩ | ⟨_, hsame⟩
      · exact ih s2 s' (by omega) hrun
      · exact ih s2 s' (by omega) hrun

/-- The only way to reach Stopped is a flush event. -/
theorem stopped_implies_flush (m : Nat) (es : List Event) :
    ∀ s s' : ExecState, s.mode ≠ Mode.stopped → run m s es = some s' →
      s'.mode = Mode.stopped → Event.flush ∈ es := by
  induction es with
  | nil =>
    intro s s' hmode hrun hstop
    cases hrun
    exact absurd hstop hmode
  | cons e es ih =>
    intro s s' hmode hrun hstop
    simp only [run] at hrun
    cases hstep : step m s e with
    | none => rw [hstep] at hrun; cases hrun
    | some s2 =>
      rw [hstep] at hrun
      by_cases he : e = Event.flush
      · subst he; exact List.mem_cons_self _ _
      · have h2 : s2.mode ≠ Mode.stopped := by
          rcases step_mode m s s2 e hstep with hsame | ⟨_, _, h1⟩ | ⟨hf, _, _⟩
          · rw [hsame]; exact hmode
          · rw [h1]; intro hx; cases hx
          · exact absurd hf he
        exact List.mem_cons_of_mem _ (ih s2 s' h2 hrun hstop)

end Executor

namespace Executor

/-- C9: for every executor run that receives at least one termination
signal and ends stopped: no task is admitted after any signal, at the
point of the producer flush every admitted task has completed or
failed (no task is in flight), and the flush happens exactly once in
the whole trace. -/
theorem executor_shutdown_protocol (m : Nat) (es : List Event) (s' : ExecState)
    (hrun : run m initState es = some s')
    (_hsig : Event.signal ∈ es)
    (hstop : s'.mode = Mode.stopped) :
    (∀ l1 l2, es = l1 ++ Event.signal :: l2 → Event.admitTask ∉ l2) ∧
      (∀ l1 l2, es = l1 ++ Event.flush :: l2 →
        ∃ s1, run m initState l1 = some s1 ∧ s1.inFlight = 0) ∧
      es.count Event.flush = 1 := by
  refine ⟨?_, ?_, ?_⟩
  · intro l1 l2 heq
    rw [heq, run_append] at hrun
    cases h1 : run m initState l1 with
    | none => rw [h1] at hrun; cases hrun
    | some s1 =>
      rw [h1, Option.some_bind] at hrun
      simp only [run] at hrun
      cases hstep : step m s1 Event.signal with
      | none => rw [hstep] at hrun; cases hrun
      | some s2 =>
        rw [hstep] at hrun
        exact no_admit_of_not_running m l2 s2 s' (signal_not_running m s1 s2 hstep) hrun
  · intro l1 l2 heq
    rw [heq, run_append] at hrun
    cases h1 : run m initState l1 with
    | none => rw [h1] at hrun; cases hrun
    | some s1 =>
      refine ⟨s1, rfl, ?_⟩
      rw [h1, Option.some_bind] at hrun
      simp only [run] at hrun
      cases hstep : step m s1 Event.flush with
      | none => rw [hstep] at hrun; cases hrun
      | some s2 =>
        simp only [step] at hstep
        split at hstep
        · next hc => exact hc.2.1
        · cases hstep
  · have hcount := flushCount_run m es initState s' hrun
    have hle : s'.flushCount ≤ 1 :=
      run_flushCount_le_one m es initState s' (by simp [initState]) hrun
    have hmem : Event.flush ∈ es :=
      stopped_implies_flush m es initState s'
        (by simp [initState]) hrun hstop
    have hpos : 0 < es.count Event.flush := List.count_pos_iff.mpr hmem
    simp only [initState] at hcount
    omega

end Executor

/-- Witness for C9: the trace admit, signal, complete, flush with
ceiling 2 runs to the stopped state and satisfies the shutdown
protocol conclusions. -/
theorem executor_shutdown_protocol_witness :
    Executor.run 2 Executor.initState
        [Executor.Event.admitTask, Executor.Event.signal, Executor.Event.complete,
          Executor.Event.flush] =
      some (Executor.ExecState.mk Executor.Mode.stopped 0 1) ∧
      Executor.Event.signal ∈
        [Executor.Event.admitTask, Executor.Event.signal, Executor.Event.complete,
          Executor.Event.flush] ∧
      (Executor.ExecState.mk Executor.Mode.stopped 0 1).mode = Executor.Mode.stopped ∧
      ((∀ l1 l2,
          [Executor.Event.admitTask, Executor.Event.signal, Executor.Event.complete,
            Executor.Event.flush] = l1 ++ Executor.Event.signal :: l2 →
          Executor.Event.admitTask ∉ l2) ∧
        (∀ l1 l2,
          [Executor.Event.admitTask, Executor.Event.signal, Executor.Event.complete,
            Executor.Event.flush] = l1 ++ Executor.Event.flush :: l2 →
          ∃ s1, Executor.run 2 Executor.initState l1 = some s1 ∧ s1.inFlight = 0) ∧
        ([Executor.Event.admitTask, Executor.Event.signal, Executor.Event.complete,
          Executor.Event.flush].count Executor.Event.flush = 1)) :=
  ⟨by decide, by decide, rfl,
    Executor.executor_shutdown_protocol 2
      [Executor.Event.admitTask, Executor.Event.signal, Executor.Event.complete,
        Executor.Event.flush]
      (Executor.ExecState.mk Executor.Mode.stopped 0 1) (by decide) (by decide) rfl⟩
